import Mathlib

/-!
Shallow embedding of the x86 speculative-execution mitigation selection engine
of `arch/x86/kernel/cpu/bugs.c` (RHEL7 kernel tree).

The C code is a collection of boot-time decision procedures.  Each selector
reads a read-once snapshot of hardware detection facts (CPU bug bits, feature
bits, the `IA32_ARCH_CAPABILITIES` MSR bits, hypervisor presence) together
with command-line overrides, and mutates a small set of module-level
variables: one mitigation-choice enum per vulnerability kind and three
reference-counted static keys (`mds_user_clear`, `mds_idle_clear`,
`mmio_stale_data_clear`).  We model the detection facts as an immutable
structure, the overrides as an immutable structure, and the mutable module
state as an explicit `BugsState` threaded through each selector.

`static_key_slow_inc`/`static_key_slow_dec` are reference-count operations;
`static_key_enabled` tests count > 0.  `cpu_smt_disable` requests are counted.
Hardware MSR writes and `setup_force_cpu_cap`/`setup_clear_cpu_cap` calls have
no feedback into the selection logic modelled here and are not part of the
state, except for `update_srbds_msr`, which is modelled as a pure function
returning the `RNGDS_MITG_DIS` bit it would write (`none` when the write is
skipped).  Diagnostics relevant to the claims are counted (the GDS
"Mitigation locked. Disable failed." warning, and command-line parser
warnings); informational status prints are not modelled.
-/

namespace Bugs

/-- `enum mds_mitigations` from the source. -/
inductive mds_mitigations
  | MDS_MITIGATION_OFF
  | MDS_MITIGATION_FULL
  | MDS_MITIGATION_VMWERV
deriving DecidableEq, Repr

/-- `enum taa_mitigations` from the source. -/
inductive taa_mitigations
  | TAA_MITIGATION_OFF
  | TAA_MITIGATION_UCODE_NEEDED
  | TAA_MITIGATION_VERW
  | TAA_MITIGATION_TSX_DISABLED
deriving DecidableEq, Repr

/-- `enum mmio_mitigations` from the source. -/
inductive mmio_mitigations
  | MMIO_MITIGATION_OFF
  | MMIO_MITIGATION_UCODE_NEEDED
  | MMIO_MITIGATION_VERW
deriving DecidableEq, Repr

/-- `enum srbds_mitigations` from the source. -/
inductive srbds_mitigations
  | SRBDS_MITIGATION_OFF
  | SRBDS_MITIGATION_UCODE_NEEDED
  | SRBDS_MITIGATION_FULL
  | SRBDS_MITIGATION_TSX_OFF
  | SRBDS_MITIGATION_HYPERVISOR
deriving DecidableEq, Repr

/-- `enum gds_mitigations` from the source. -/
inductive gds_mitigations
  | GDS_MITIGATION_OFF
  | GDS_MITIGATION_UCODE_NEEDED
  | GDS_MITIGATION_FORCE
  | GDS_MITIGATION_FULL
  | GDS_MITIGATION_FULL_LOCKED
  | GDS_MITIGATION_HYPERVISOR
deriving DecidableEq, Repr

/-- `enum retbleed_mitigation` from the source. -/
inductive retbleed_mitigation
  | RETBLEED_MITIGATION_NONE
  | RETBLEED_MITIGATION_UNRET
  | RETBLEED_MITIGATION_IBPB
  | RETBLEED_MITIGATION_IBRS
  | RETBLEED_MITIGATION_EIBRS
deriving DecidableEq, Repr

/-- `enum retbleed_mitigation_cmd` from the source. -/
inductive retbleed_mitigation_cmd
  | RETBLEED_CMD_OFF
  | RETBLEED_CMD_AUTO
  | RETBLEED_CMD_UNRET
  | RETBLEED_CMD_IBPB
deriving DecidableEq, Repr

/-- `enum spectre_v2_mitigation`: SpectreV2's finalized choice
(indices of `spectre_v2_strings`). -/
inductive spectre_v2_mitigation
  | SPECTRE_V2_NONE
  | SPECTRE_V2_RETPOLINE_MINIMAL
  | SPECTRE_V2_RETPOLINE_NO_IBPB
  | SPECTRE_V2_RETPOLINE_UNSAFE_MODULE
  | SPECTRE_V2_RETPOLINE_AMD
  | SPECTRE_V2_RETPOLINE
  | SPECTRE_V2_RETPOLINE_IBRS_USER
  | SPECTRE_V2_IBRS
  | SPECTRE_V2_IBRS_ALWAYS
  | SPECTRE_V2_IBP_DISABLED
  | SPECTRE_V2_IBRS_ENHANCED
deriving DecidableEq, Repr

/-- `enum spectre_v2_mitigation_cmd` from the source. -/
inductive spectre_v2_mitigation_cmd
  | SPECTRE_V2_CMD_NONE
  | SPECTRE_V2_CMD_FORCE
  | SPECTRE_V2_CMD_AUTO
  | SPECTRE_V2_CMD_RETPOLINE
  | SPECTRE_V2_CMD_RETPOLINE_AMD
  | SPECTRE_V2_CMD_RETPOLINE_FORCE
  | SPECTRE_V2_CMD_RETPOLINE_IBRS_USER
  | SPECTRE_V2_CMD_IBRS
  | SPECTRE_V2_CMD_IBRS_ALWAYS
deriving DecidableEq, Repr

/-- CPU vendor, as tested via `boot_cpu_data.x86_vendor`. -/
inductive x86_vendor
  | X86_VENDOR_INTEL
  | X86_VENDOR_AMD
  | X86_VENDOR_OTHER
deriving DecidableEq, Repr

open mds_mitigations taa_mitigations mmio_mitigations srbds_mitigations
open gds_mitigations retbleed_mitigation retbleed_mitigation_cmd
open spectre_v2_mitigation spectre_v2_mitigation_cmd x86_vendor

/-- Per-boot, read-once snapshot of everything the selectors read from the
hardware and from earlier boot phases: `boot_cpu_has_bug` bits,
`boot_cpu_has` feature bits, `x86_read_arch_cap_msr()` bits, the
`MCU_OPT_CTRL` GDS lock bit, the vendor, the global `mitigations=` state, the
`CONFIG_RETPOLINE` build flag and the already-finalized SpectreV2 choice
(`spectre_v2_enabled`, consumed by `retbleed_select_mitigation`). -/
structure DetectionFacts where
  bug_mds : Bool
  bug_taa : Bool
  bug_mmio_stale_data : Bool
  bug_srbds : Bool
  bug_gds : Bool
  bug_retbleed : Bool
  bug_msbds_only : Bool
  feat_md_clear : Bool
  feat_rtm : Bool
  feat_hypervisor : Bool
  feat_srbds_ctrl : Bool
  feat_ibpb : Bool
  feat_stibp : Bool
  feat_flush_l1d : Bool
  feat_lfence_rdtsc : Bool
  arch_cap_mds_no : Bool
  arch_cap_tsx_ctrl_msr : Bool
  arch_cap_fbsdp_no : Bool
  arch_cap_fb_clear : Bool
  arch_cap_gds_ctrl : Bool
  gds_mitg_locked : Bool
  vendor : x86_vendor
  mitigations_off : Bool
  mitigations_auto_nosmt : Bool
  spec_ctrl_base_stibp : Bool
  config_retpoline : Bool
  spectre_v2_enabled : spectre_v2_mitigation
deriving DecidableEq, Repr

/-- The command-line overrides that live in module booleans / the retbleed
command variable (the mds/taa/mmio/gds overrides are instead the initial
values of the corresponding mitigation variables, see `initState`). -/
structure Overrides where
  mds_nosmt : Bool
  taa_nosmt : Bool
  mmio_nosmt : Bool
  srbds_off : Bool
  retbleed_cmd : retbleed_mitigation_cmd
  retbleed_nosmt : Bool
deriving DecidableEq, Repr

/-- The mutable module-level state of `bugs.c` that the selection phase
reads and writes: the per-kind mitigation choices, the three static-key
reference counts, the count of `cpu_smt_disable` requests, and the count of
GDS "Mitigation locked. Disable failed." warnings. -/
structure BugsState where
  mds_mitigation : mds_mitigations
  taa_mitigation : taa_mitigations
  mmio_mitigation : mmio_mitigations
  srbds_mitigation : srbds_mitigations
  gds_mitigation : gds_mitigations
  retbleed_mitigation : retbleed_mitigation
  mds_user_clear : Nat
  mds_idle_clear : Nat
  mmio_stale_data_clear : Nat
  smt_disable_requests : Nat
  gds_lock_warns : Nat
deriving DecidableEq, Repr

/-- The module state at entry to the selection phase.  The mds/taa/mmio/gds
choice variables carry their command-line-parsed values (defaults:
`MDS_MITIGATION_FULL`, `TAA_MITIGATION_VERW`, `MMIO_MITIGATION_VERW`,
`GDS_MITIGATION_FULL`); `srbds_mitigation` starts at its
`SRBDS_MITIGATION_FULL` default, `retbleed_mitigation` at
`RETBLEED_MITIGATION_NONE`; the static keys start at reference count 0. -/
def initState (m : mds_mitigations) (t : taa_mitigations)
    (mm : mmio_mitigations) (g : gds_mitigations) : BugsState :=
  { mds_mitigation := m
    taa_mitigation := t
    mmio_mitigation := mm
    srbds_mitigation := SRBDS_MITIGATION_FULL
    gds_mitigation := g
    retbleed_mitigation := RETBLEED_MITIGATION_NONE
    mds_user_clear := 0
    mds_idle_clear := 0
    mmio_stale_data_clear := 0
    smt_disable_requests := 0
    gds_lock_warns := 0 }

/-- `mds_select_mitigation` (bugs.c lines 190-207). -/
def mds_select_mitigation (f : DetectionFacts) (o : Overrides)
    (s : BugsState) : BugsState :=
  if f.bug_mds = false ∨ f.mitigations_off = true then
    { s with mds_mitigation := MDS_MITIGATION_OFF }
  else if s.mds_mitigation = MDS_MITIGATION_FULL then
    let s1 := if f.feat_md_clear = false then
        { s with mds_mitigation := MDS_MITIGATION_VMWERV }
      else s
    let s2 := { s1 with mds_user_clear := s1.mds_user_clear + 1 }
    if f.bug_msbds_only = false ∧
        (o.mds_nosmt = true ∨ f.mitigations_auto_nosmt = true) then
      { s2 with smt_disable_requests := s2.smt_disable_requests + 1 }
    else s2
  else s

/-- `taa_select_mitigation` (bugs.c lines 252-310). -/
def taa_select_mitigation (f : DetectionFacts) (o : Overrides)
    (s : BugsState) : BugsState :=
  if f.bug_taa = false then
    { s with taa_mitigation := TAA_MITIGATION_OFF }
  else if f.feat_rtm = false then
    { s with taa_mitigation := TAA_MITIGATION_TSX_DISABLED }
  else if f.mitigations_off = true then
    { s with taa_mitigation := TAA_MITIGATION_OFF }
  else if s.taa_mitigation = TAA_MITIGATION_OFF ∧
      s.mds_mitigation = MDS_MITIGATION_OFF then
    s
  else
    let t0 := if f.feat_md_clear = true then TAA_MITIGATION_VERW
      else TAA_MITIGATION_UCODE_NEEDED
    let t1 := if f.arch_cap_mds_no = true ∧ f.arch_cap_tsx_ctrl_msr = false
      then TAA_MITIGATION_UCODE_NEEDED else t0
    let s1 := { s with taa_mitigation := t1,
                       mds_user_clear := s.mds_user_clear + 1 }
    if o.taa_nosmt = true ∨ f.mitigations_auto_nosmt = true then
      { s1 with smt_disable_requests := s1.smt_disable_requests + 1 }
    else s1

/-- `mmio_select_mitigation` (bugs.c lines 352-402). -/
def mmio_select_mitigation (f : DetectionFacts) (o : Overrides)
    (s : BugsState) : BugsState :=
  if f.bug_mmio_stale_data = false ∨ f.mitigations_off = true then
    { s with mmio_mitigation := MMIO_MITIGATION_OFF }
  else if s.mmio_mitigation = MMIO_MITIGATION_OFF then
    s
  else
    let s1 := if f.bug_mds = true ∨
        (f.bug_taa = true ∧ f.feat_rtm = true) then
        { s with mds_user_clear := s.mds_user_clear + 1 }
      else
        { s with mmio_stale_data_clear := s.mmio_stale_data_clear + 1 }
    let s2 := if f.arch_cap_fbsdp_no = false then
        { s1 with mds_idle_clear := s1.mds_idle_clear + 1 }
      else s1
    let m := if f.arch_cap_fb_clear = true ∨
        (f.feat_md_clear = true ∧ f.feat_flush_l1d = true ∧
         f.arch_cap_mds_no = false) then MMIO_MITIGATION_VERW
      else MMIO_MITIGATION_UCODE_NEEDED
    let s3 := { s2 with mmio_mitigation := m }
    if o.mmio_nosmt = true ∨ f.mitigations_auto_nosmt = true then
      { s3 with smt_disable_requests := s3.smt_disable_requests + 1 }
    else s3

/-- The MDS block of `md_clear_update_mitigation` (bugs.c lines 440-444):
re-select MDS at full strength if it is off but affected. -/
def md_clear_update_mds (f : DetectionFacts) (o : Overrides)
    (s : BugsState) : BugsState :=
  if s.mds_mitigation = MDS_MITIGATION_OFF ∧ f.bug_mds = true
    then mds_select_mitigation f o
      { s with mds_mitigation := MDS_MITIGATION_FULL }
    else s

/-- The TAA block of `md_clear_update_mitigation` (bugs.c lines 445-449). -/
def md_clear_update_taa (f : DetectionFacts) (o : Overrides)
    (s : BugsState) : BugsState :=
  if s.taa_mitigation = TAA_MITIGATION_OFF ∧ f.bug_taa = true
    then taa_select_mitigation f o
      { s with taa_mitigation := TAA_MITIGATION_VERW }
    else s

/-- The MMIO block of `md_clear_update_mitigation` (bugs.c lines 450-454). -/
def md_clear_update_mmio (f : DetectionFacts) (o : Overrides)
    (s : BugsState) : BugsState :=
  if s.mmio_mitigation = MMIO_MITIGATION_OFF ∧
      f.bug_mmio_stale_data = true
    then mmio_select_mitigation f o
      { s with mmio_mitigation := MMIO_MITIGATION_VERW }
    else s

/-- `md_clear_update_mitigation` (bugs.c lines 428-462); the final status
prints are not modelled. -/
def md_clear_update_mitigation (f : DetectionFacts) (o : Overrides)
    (s : BugsState) : BugsState :=
  if f.mitigations_off = true then s
  else if s.mds_user_clear = 0 then s
  else
    md_clear_update_mmio f o
      (md_clear_update_taa f o
        (md_clear_update_mds f o s))

/-- `md_clear_select_mitigation` (bugs.c lines 464-476). -/
def md_clear_select_mitigation (f : DetectionFacts) (o : Overrides)
    (s : BugsState) : BugsState :=
  md_clear_update_mitigation f o
    (mmio_select_mitigation f o
      (taa_select_mitigation f o
        (mds_select_mitigation f o s)))

/-- `srbds_select_mitigation` (bugs.c lines 531-556); the trailing
`update_srbds_msr()` call is modelled separately by `update_srbds_msr`. -/
def srbds_select_mitigation (f : DetectionFacts) (o : Overrides)
    (s : BugsState) : BugsState :=
  if f.bug_srbds = false then s
  else
    let m := if f.arch_cap_mds_no = true ∧ f.feat_rtm = false ∧
        f.bug_mmio_stale_data = false then SRBDS_MITIGATION_TSX_OFF
      else if f.feat_hypervisor = true then SRBDS_MITIGATION_HYPERVISOR
      else if f.feat_srbds_ctrl = false then SRBDS_MITIGATION_UCODE_NEEDED
      else if f.mitigations_off = true ∨ o.srbds_off = true then
        SRBDS_MITIGATION_OFF
      else s.srbds_mitigation
    { s with srbds_mitigation := m }

/-- `update_srbds_msr` (bugs.c lines 501-529): returns the `RNGDS_MITG_DIS`
bit of `MSR_IA32_MCU_OPT_CTRL` that would be written, given its prior value,
or `none` when the MSR update is skipped. -/
def update_srbds_msr (f : DetectionFacts) (m : srbds_mitigations)
    (prior : Bool) : Option Bool :=
  if f.bug_srbds = false then none
  else if f.feat_hypervisor = true then none
  else if m = SRBDS_MITIGATION_UCODE_NEEDED then none
  else match m with
    | SRBDS_MITIGATION_OFF => some true
    | SRBDS_MITIGATION_TSX_OFF => some true
    | SRBDS_MITIGATION_FULL => some false
    | _ => some prior

/-- `gds_select_mitigation` (bugs.c lines 732-785).  The
`pr_warn("Mitigation locked. Disable failed.")` diagnostic is counted in
`gds_lock_warns`; `update_gds_msr()` and the AVX-force-clear side effects
have no feedback into selection and are not part of the state. -/
def gds_select_mitigation (f : DetectionFacts)
    (s : BugsState) : BugsState :=
  if f.bug_gds = false then s
  else if f.feat_hypervisor = true then
    { s with gds_mitigation := GDS_MITIGATION_HYPERVISOR }
  else
    let s1 := if f.mitigations_off = true then
        { s with gds_mitigation := GDS_MITIGATION_OFF }
      else s
    if f.arch_cap_gds_ctrl = false then
      if s1.gds_mitigation = GDS_MITIGATION_FORCE then s1
      else { s1 with gds_mitigation := GDS_MITIGATION_UCODE_NEEDED }
    else
      let s2 := if s1.gds_mitigation = GDS_MITIGATION_FORCE then
          { s1 with gds_mitigation := GDS_MITIGATION_FULL }
        else s1
      if f.gds_mitg_locked = true then
        let s3 := if s2.gds_mitigation = GDS_MITIGATION_OFF then
            { s2 with gds_lock_warns := s2.gds_lock_warns + 1 }
          else s2
        { s3 with gds_mitigation := GDS_MITIGATION_FULL_LOCKED }
      else s2

/-- The first `switch (retbleed_cmd)` block of `retbleed_select_mitigation`
(bugs.c lines 878-912), given the prior `retbleed_mitigation` value: unret
and supported ibpb pick their modes, everything else (AUTO, or the
IBPB-unsupported fallthrough) picks the AMD mode on AMD and otherwise
leaves the prior value (the Intel choice is applied afterwards). -/
def retbleed_cmd_choice (f : DetectionFacts) (o : Overrides)
    (r0 : retbleed_mitigation) : retbleed_mitigation :=
  if o.retbleed_cmd = RETBLEED_CMD_UNRET then RETBLEED_MITIGATION_UNRET
  else if o.retbleed_cmd = RETBLEED_CMD_IBPB ∧ f.feat_ibpb = true then
    RETBLEED_MITIGATION_IBPB
  else
    if f.vendor = X86_VENDOR_AMD then
      if f.config_retpoline = false ∧ f.feat_ibpb = true then
        RETBLEED_MITIGATION_IBPB
      else RETBLEED_MITIGATION_UNRET
    else r0

/-- The final "Let IBRS trump all on Intel" block of
`retbleed_select_mitigation` (bugs.c lines 943-955). -/
def retbleed_intel_override (f : DetectionFacts)
    (m : retbleed_mitigation) : retbleed_mitigation :=
  if f.vendor = X86_VENDOR_INTEL then
    match f.spectre_v2_enabled with
    | SPECTRE_V2_IBRS_ALWAYS => RETBLEED_MITIGATION_IBRS
    | SPECTRE_V2_IBRS => RETBLEED_MITIGATION_IBRS
    | SPECTRE_V2_IBRS_ENHANCED => RETBLEED_MITIGATION_EIBRS
    | _ => m
  else m

/-- `retbleed_select_mitigation` (bugs.c lines 871-958).  The
`setup_force_cpu_cap` calls and the diagnostics are not part of the modelled
state; `spectre_v2_enabled` is the SpectreV2 choice finalized earlier. -/
def retbleed_select_mitigation (f : DetectionFacts) (o : Overrides)
    (s : BugsState) : BugsState :=
  if f.bug_retbleed = false ∨ f.mitigations_off = true then s
  else if o.retbleed_cmd = RETBLEED_CMD_OFF then s
  else
    let m1 := retbleed_cmd_choice f o s.retbleed_mitigation
    let mitigate_smt := m1 = RETBLEED_MITIGATION_UNRET ∨
      m1 = RETBLEED_MITIGATION_IBPB
    let s1 := { s with retbleed_mitigation := m1 }
    let s2 := if mitigate_smt ∧
        (f.feat_stibp = false ∨ f.spec_ctrl_base_stibp = false) ∧
        (o.retbleed_nosmt = true ∨ f.mitigations_auto_nosmt = true) then
        { s1 with smt_disable_requests := s1.smt_disable_requests + 1 }
      else s1
    { s2 with retbleed_mitigation := retbleed_intel_override f m1 }

/-- `update_mds_branch_idle` (bugs.c lines 1170-1193), parameterized by the
current `sched_smt_active()` value. -/
def update_mds_branch_idle (f : DetectionFacts) (smt : Bool)
    (s : BugsState) : BugsState :=
  if f.bug_msbds_only = false then s
  else if smt = true then
    if s.mds_idle_clear = 0 then
      { s with mds_idle_clear := s.mds_idle_clear + 1 }
    else s
  else if s.mmio_mitigation = MMIO_MITIGATION_OFF ∨
      f.arch_cap_fbsdp_no = true then
    if 0 < s.mds_idle_clear then
      { s with mds_idle_clear := s.mds_idle_clear - 1 }
    else s
  else s

/-- `arch_smt_update` (bugs.c lines 1199-1236), parameterized by the current
`sched_smt_active()` value.  The TAA/MMIO branches only emit rate-limited
warnings and are not modelled; only the MDS branch mutates state, via
`update_mds_branch_idle`. -/
def arch_smt_update (f : DetectionFacts) (smt : Bool)
    (s : BugsState) : BugsState :=
  match s.mds_mitigation with
  | MDS_MITIGATION_FULL => update_mds_branch_idle f smt s
  | MDS_MITIGATION_VMWERV => update_mds_branch_idle f smt s
  | MDS_MITIGATION_OFF => s

/-- Sequential invocations of `arch_smt_update`, one per SMT-topology
notification, each with the then-current `sched_smt_active()` value. -/
def smtRuns (f : DetectionFacts) : List Bool → BugsState → BugsState
  | [], s => s
  | b :: bs, s => smtRuns f bs (arch_smt_update f b s)

/-- Last element of a list of SMT states, with a default. -/
def lastD : List Bool → Bool → Bool
  | [], b => b
  | x :: xs, _ => lastD xs x

/-- The pieces of module state written by `mds_cmdline`. -/
structure MdsCmdState where
  mds_mitigation : mds_mitigations
  mds_nosmt : Bool
deriving DecidableEq, Repr

/-- `mds_cmdline` (bugs.c lines 217-236), the `mds=` early param handler,
given the `X86_BUG_MDS` bit and the token after `mds=`.  Returns the updated
state and the number of warnings printed (the source prints none: an
unrecognized token is silently ignored). -/
def mds_cmdline (bug_mds : Bool) (str : String)
    (st : MdsCmdState) : MdsCmdState × Nat :=
  if bug_mds = false then (st, 0)
  else if str = "off" then
    ({ st with mds_mitigation := MDS_MITIGATION_OFF }, 0)
  else if str = "full" then
    ({ st with mds_mitigation := MDS_MITIGATION_FULL }, 0)
  else if str = "full,nosmt" then
    ({ mds_mitigation := MDS_MITIGATION_FULL, mds_nosmt := true }, 0)
  else (st, 0)

/-- The pieces of module state written by `retbleed_parse_cmdline`. -/
structure RetbleedCmdState where
  retbleed_cmd : retbleed_mitigation_cmd
  retbleed_nosmt : Bool
deriving DecidableEq, Repr

/-- The loop body list of `retbleed_parse_cmdline` (bugs.c lines 837-865):
the C code splits the `retbleed=` value at commas and processes each token;
an unknown token prints one `pr_err` ("Ignoring unknown retbleed option")
and changes nothing.  The warning count is accumulated. -/
def retbleed_parse_tokens : List String → RetbleedCmdState × Nat →
    RetbleedCmdState × Nat
  | [], acc => acc
  | t :: ts, (st, w) =>
    let acc1 : RetbleedCmdState × Nat :=
      if t = "off" then ({ st with retbleed_cmd := RETBLEED_CMD_OFF }, w)
      else if t = "auto" then
        ({ st with retbleed_cmd := RETBLEED_CMD_AUTO }, w)
      else if t = "unret" then
        ({ st with retbleed_cmd := RETBLEED_CMD_UNRET }, w)
      else if t = "ibpb" then
        ({ st with retbleed_cmd := RETBLEED_CMD_IBPB }, w)
      else if t = "nosmt" then ({ st with retbleed_nosmt := true }, w)
      else (st, w + 1)
    retbleed_parse_tokens ts acc1

/-- `retbleed_parse_cmdline` applied to the comma-split token list of the
`retbleed=` value, starting from the module defaults
(`RETBLEED_CMD_AUTO`, `retbleed_nosmt = false`). -/
def retbleed_parse_cmdline (tokens : List String) :
    RetbleedCmdState × Nat :=
  retbleed_parse_tokens tokens
    ({ retbleed_cmd := RETBLEED_CMD_AUTO, retbleed_nosmt := false }, 0)

/-- The `mitigation_options` table lookup of `spectre_v2_parse_cmdline`
(bugs.c lines 972-986 and the `match_option` loop). -/
def spectre_v2_match_option (arg : String) :
    Option spectre_v2_mitigation_cmd :=
  if arg = "off" then some SPECTRE_V2_CMD_NONE
  else if arg = "on" then some SPECTRE_V2_CMD_FORCE
  else if arg = "retpoline" then some SPECTRE_V2_CMD_RETPOLINE
  else if arg = "retpoline,amd" then some SPECTRE_V2_CMD_RETPOLINE_AMD
  else if arg = "retpoline,force" then some SPECTRE_V2_CMD_RETPOLINE_FORCE
  else if arg = "retpoline,ibrs_user" then
    some SPECTRE_V2_CMD_RETPOLINE_IBRS_USER
  else if arg = "ibrs" then some SPECTRE_V2_CMD_IBRS
  else if arg = "ibrs_always" then some SPECTRE_V2_CMD_IBRS_ALWAYS
  else if arg = "auto" then some SPECTRE_V2_CMD_AUTO
  else none

/-- `spectre_v2_parse_cmdline` (bugs.c lines 1000-1091), given the
`nospectre_v2` boolean, the optional `spectre_v2=` argument, and the
detection facts it consults.  Returns the resulting command and the number
of `pr_err`/`pr_warn` diagnostics printed (the informational
`spec2_print_if_secure`/`insecure` lines are not counted). -/
def spectre_v2_parse_cmdline (f : DetectionFacts) (nospectre_v2 : Bool)
    (arg : Option String) : spectre_v2_mitigation_cmd × Nat :=
  if nospectre_v2 = true ∨ f.mitigations_off = true then
    (SPECTRE_V2_CMD_NONE, 0)
  else
    match arg with
    | none => (SPECTRE_V2_CMD_AUTO, 0)
    | some a =>
      match spectre_v2_match_option a with
      | none => (SPECTRE_V2_CMD_AUTO, 1)
      | some cmd =>
        if (cmd = SPECTRE_V2_CMD_RETPOLINE ∨
            cmd = SPECTRE_V2_CMD_RETPOLINE_AMD ∨
            cmd = SPECTRE_V2_CMD_RETPOLINE_FORCE ∨
            cmd = SPECTRE_V2_CMD_RETPOLINE_IBRS_USER) ∧
            f.config_retpoline = false then
          (SPECTRE_V2_CMD_AUTO, 1)
        else if cmd = SPECTRE_V2_CMD_RETPOLINE_AMD ∧
            f.vendor ≠ X86_VENDOR_AMD then
          (SPECTRE_V2_CMD_AUTO, 0)
        else if cmd = SPECTRE_V2_CMD_RETPOLINE_AMD ∧
            f.feat_lfence_rdtsc = false then
          (SPECTRE_V2_CMD_AUTO, 1)
        else if f.bug_retbleed = true ∧ f.vendor = X86_VENDOR_INTEL then
          if cmd = SPECTRE_V2_CMD_RETPOLINE then (SPECTRE_V2_CMD_AUTO, 1)
          else if cmd = SPECTRE_V2_CMD_RETPOLINE_FORCE then (cmd, 1)
          else (cmd, 0)
        else (cmd, 0)

/-- `enum ssb_mitigation_cmd` from the source. -/
inductive ssb_mitigation_cmd
  | SPEC_STORE_BYPASS_CMD_NONE
  | SPEC_STORE_BYPASS_CMD_AUTO
  | SPEC_STORE_BYPASS_CMD_ON
  | SPEC_STORE_BYPASS_CMD_PRCTL
  | SPEC_STORE_BYPASS_CMD_SECCOMP
deriving DecidableEq, Repr

open ssb_mitigation_cmd

/-- The `ssb_mitigation_options` table lookup (bugs.c lines 1313-1322). -/
def ssb_match_option (arg : String) : Option ssb_mitigation_cmd :=
  if arg = "auto" then some SPEC_STORE_BYPASS_CMD_AUTO
  else if arg = "on" then some SPEC_STORE_BYPASS_CMD_ON
  else if arg = "off" then some SPEC_STORE_BYPASS_CMD_NONE
  else if arg = "prctl" then some SPEC_STORE_BYPASS_CMD_PRCTL
  else if arg = "seccomp" then some SPEC_STORE_BYPASS_CMD_SECCOMP
  else none

/-- `__ssb_parse_cmdline` (bugs.c lines 1324-1354), given the
`nospec_store_bypass_disable` boolean, the global mitigations-off state and
the optional `spec_store_bypass_disable=` argument.  Returns the resulting
command and the number of warnings printed (one `pr_err` for an unknown
option). -/
def ssb_parse_cmdline_fn (nospec_store_bypass_disable : Bool)
    (mitigations_off : Bool) (arg : Option String) :
    ssb_mitigation_cmd × Nat :=
  if nospec_store_bypass_disable = true ∨ mitigations_off = true then
    (SPEC_STORE_BYPASS_CMD_NONE, 0)
  else
    match arg with
    | none => (SPEC_STORE_BYPASS_CMD_AUTO, 0)
    | some a =>
      match ssb_match_option a with
      | some c => (c, 0)
      | none => (SPEC_STORE_BYPASS_CMD_AUTO, 1)

/-! ### Concrete inputs used by counterexamples and witnesses -/

/-- A concrete detection-facts record with every bug/feature bit clear;
concrete test inputs below override the fields they need. -/
def factsBase : DetectionFacts :=
  { bug_mds := false, bug_taa := false, bug_mmio_stale_data := false,
    bug_srbds := false, bug_gds := false, bug_retbleed := false,
    bug_msbds_only := false,
    feat_md_clear := false, feat_rtm := false, feat_hypervisor := false,
    feat_srbds_ctrl := false, feat_ibpb := false, feat_stibp := false,
    feat_flush_l1d := false, feat_lfence_rdtsc := false,
    arch_cap_mds_no := false, arch_cap_tsx_ctrl_msr := false,
    arch_cap_fbsdp_no := false, arch_cap_fb_clear := false,
    arch_cap_gds_ctrl := false, gds_mitg_locked := false,
    vendor := X86_VENDOR_OTHER, mitigations_off := false,
    mitigations_auto_nosmt := false, spec_ctrl_base_stibp := false,
    config_retpoline := true,
    spectre_v2_enabled := SPECTRE_V2_NONE }

/-- The no-override default values of the override variables. -/
def ovBase : Overrides :=
  { mds_nosmt := false, taa_nosmt := false, mmio_nosmt := false,
    srbds_off := false, retbleed_cmd := RETBLEED_CMD_AUTO,
    retbleed_nosmt := false }

/-- The boot-entry module state with all per-kind defaults (no command-line
override given for mds/tsx_async_abort/mmio_stale_data/gather_data_sampling). -/
def stateDefaults : BugsState :=
  initState MDS_MITIGATION_FULL TAA_MITIGATION_VERW MMIO_MITIGATION_VERW
    GDS_MITIGATION_FULL

/-! ### C1: RETBleed/SpectreV2 ordering law on Intel -/

/-- Claim C1, amended: on RETBleed-affected Intel hardware with global
mitigations not disabled and the already-finalized SpectreV2 choice equal to
Enhanced IBRS, every value of the retbleed= override OTHER THAN "off" makes
the finalized RETBleed choice Enhanced IBRS.  (With retbleed=off the
selector returns before the Intel override and the choice stays
`RETBLEED_MITIGATION_NONE`.) -/
theorem retbleed_eibrs_ordering (f : DetectionFacts) (o : Overrides)
    (s : BugsState) (hv : f.vendor = X86_VENDOR_INTEL)
    (hb : f.bug_retbleed = true) (hm : f.mitigations_off = false)
    (he : f.spectre_v2_enabled = SPECTRE_V2_IBRS_ENHANCED)
    (hc : o.retbleed_cmd ≠ RETBLEED_CMD_OFF) :
    (retbleed_select_mitigation f o s).retbleed_mitigation =
      RETBLEED_MITIGATION_EIBRS := by
  unfold retbleed_select_mitigation retbleed_intel_override
  simp only [hv, hb, hm, he, hc]
  split_ifs <;> simp_all

/-- Concrete facts for C1: RETBleed-affected Intel hardware whose SpectreV2
choice was finalized to Enhanced IBRS, global mitigations enabled. -/
def fC1 : DetectionFacts :=
  { factsBase with
    bug_retbleed := true
    vendor := X86_VENDOR_INTEL
    spectre_v2_enabled := SPECTRE_V2_IBRS_ENHANCED }

/-- Claim C1 counterexample: with the retbleed=off override on the same
hardware, the selector returns early and the finalized RETBleed choice is
`RETBLEED_MITIGATION_NONE`, not Enhanced IBRS — the claimed law does not
cover the "off" override. -/
theorem retbleed_eibrs_ordering_cex :
    (retbleed_select_mitigation fC1
        { ovBase with retbleed_cmd := RETBLEED_CMD_OFF }
        stateDefaults).retbleed_mitigation = RETBLEED_MITIGATION_NONE ∧
    RETBLEED_MITIGATION_NONE ≠ RETBLEED_MITIGATION_EIBRS := by
  decide

/-- Witness for C1's amended theorem at a concrete input (retbleed=auto). -/
theorem retbleed_eibrs_ordering_witness :
    (retbleed_select_mitigation fC1 ovBase
      stateDefaults).retbleed_mitigation = RETBLEED_MITIGATION_EIBRS :=
  retbleed_eibrs_ordering fC1 ovBase stateDefaults rfl rfl rfl rfl
    (by decide)

/-! ### C7: MMIO folds its buffer-clear request into the shared key only
when MDS or TAA-with-RTM already covers it -/

/-- Claim C7: when MMIO Stale Data is affected, global mitigations are not
disabled and the MMIO mitigation is not overridden off, one run of
`mmio_select_mitigation` increments the shared `mds_user_clear` key exactly
when the host is also MDS-affected or TAA-affected with RTM enabled, and
otherwise increments the independent `mmio_stale_data_clear` key; exactly
one of the two is incremented. -/
theorem mmio_effect_folding (f : DetectionFacts) (o : Overrides)
    (s : BugsState) (hbug : f.bug_mmio_stale_data = true)
    (hoff : f.mitigations_off = false)
    (hent : s.mmio_mitigation ≠ MMIO_MITIGATION_OFF) :
    ((f.bug_mds = true ∨ (f.bug_taa = true ∧ f.feat_rtm = true)) →
      (mmio_select_mitigation f o s).mds_user_clear =
          s.mds_user_clear + 1 ∧
      (mmio_select_mitigation f o s).mmio_stale_data_clear =
          s.mmio_stale_data_clear) ∧
    (¬(f.bug_mds = true ∨ (f.bug_taa = true ∧ f.feat_rtm = true)) →
      (mmio_select_mitigation f o s).mmio_stale_data_clear =
          s.mmio_stale_data_clear + 1 ∧
      (mmio_select_mitigation f o s).mds_user_clear = s.mds_user_clear) := by
  unfold mmio_select_mitigation
  simp only [hbug, hoff, hent]
  split_ifs <;> simp_all

/-- Concrete facts for C7: MMIO-affected host that is also MDS-affected. -/
def fC7 : DetectionFacts :=
  { factsBase with bug_mmio_stale_data := true, bug_mds := true }

/-- Witness for C7 at a concrete input: the shared key is taken. -/
theorem mmio_effect_folding_witness :
    (mmio_select_mitigation fC7 ovBase stateDefaults).mds_user_clear =
        stateDefaults.mds_user_clear + 1 ∧
    (mmio_select_mitigation fC7 ovBase
        stateDefaults).mmio_stale_data_clear =
        stateDefaults.mmio_stale_data_clear :=
  (mmio_effect_folding fC7 ovBase stateDefaults rfl rfl (by decide)).1
    (by decide)

/-! ### Characterization and frame lemmas for the individual selectors -/

theorem mds_select_choice (f : DetectionFacts) (o : Overrides)
    (s : BugsState) :
    (mds_select_mitigation f o s).mds_mitigation =
      if f.bug_mds = false ∨ f.mitigations_off = true then
        MDS_MITIGATION_OFF
      else if s.mds_mitigation = MDS_MITIGATION_FULL ∧
          f.feat_md_clear = false then MDS_MITIGATION_VMWERV
      else s.mds_mitigation := by
  unfold mds_select_mitigation
  split_ifs <;> simp_all

theorem mds_select_frame (f : DetectionFacts) (o : Overrides)
    (s : BugsState) :
    (mds_select_mitigation f o s).taa_mitigation = s.taa_mitigation ∧
    (mds_select_mitigation f o s).mmio_mitigation = s.mmio_mitigation ∧
    (mds_select_mitigation f o s).mds_idle_clear = s.mds_idle_clear ∧
    (mds_select_mitigation f o s).mmio_stale_data_clear =
      s.mmio_stale_data_clear := by
  unfold mds_select_mitigation
  split_ifs <;> simp_all

theorem mds_select_user_clear (f : DetectionFacts) (o : Overrides)
    (s : BugsState) :
    (mds_select_mitigation f o s).mds_user_clear =
      if f.bug_mds = true ∧ f.mitigations_off = false ∧
          s.mds_mitigation = MDS_MITIGATION_FULL then s.mds_user_clear + 1
      else s.mds_user_clear := by
  unfold mds_select_mitigation
  split_ifs <;> simp_all

theorem taa_select_choice (f : DetectionFacts) (o : Overrides)
    (s : BugsState) :
    (taa_select_mitigation f o s).taa_mitigation =
      if f.bug_taa = false then TAA_MITIGATION_OFF
      else if f.feat_rtm = false then TAA_MITIGATION_TSX_DISABLED
      else if f.mitigations_off = true then TAA_MITIGATION_OFF
      else if s.taa_mitigation = TAA_MITIGATION_OFF ∧
          s.mds_mitigation = MDS_MITIGATION_OFF then s.taa_mitigation
      else if f.arch_cap_mds_no = true ∧ f.arch_cap_tsx_ctrl_msr = false
        then TAA_MITIGATION_UCODE_NEEDED
      else if f.feat_md_clear = true then TAA_MITIGATION_VERW
      else TAA_MITIGATION_UCODE_NEEDED := by
  unfold taa_select_mitigation
  split_ifs <;> simp_all

theorem taa_select_frame (f : DetectionFacts) (o : Overrides)
    (s : BugsState) :
    (taa_select_mitigation f o s).mds_mitigation = s.mds_mitigation ∧
    (taa_select_mitigation f o s).mmio_mitigation = s.mmio_mitigation ∧
    (taa_select_mitigation f o s).mds_idle_clear = s.mds_idle_clear ∧
    (taa_select_mitigation f o s).mmio_stale_data_clear =
      s.mmio_stale_data_clear := by
  unfold taa_select_mitigation
  split_ifs <;> simp_all

theorem taa_select_user_clear (f : DetectionFacts) (o : Overrides)
    (s : BugsState) :
    (taa_select_mitigation f o s).mds_user_clear =
      if f.bug_taa = true ∧ f.feat_rtm = true ∧
          f.mitigations_off = false ∧
          ¬(s.taa_mitigation = TAA_MITIGATION_OFF ∧
            s.mds_mitigation = MDS_MITIGATION_OFF) then
        s.mds_user_clear + 1
      else s.mds_user_clear := by
  unfold taa_select_mitigation
  split_ifs <;> simp_all

theorem mmio_select_choice (f : DetectionFacts) (o : Overrides)
    (s : BugsState) :
    (mmio_select_mitigation f o s).mmio_mitigation =
      if f.bug_mmio_stale_data = false ∨ f.mitigations_off = true then
        MMIO_MITIGATION_OFF
      else if s.mmio_mitigation = MMIO_MITIGATION_OFF then
        MMIO_MITIGATION_OFF
      else if f.arch_cap_fb_clear = true ∨
          (f.feat_md_clear = true ∧ f.feat_flush_l1d = true ∧
           f.arch_cap_mds_no = false) then MMIO_MITIGATION_VERW
      else MMIO_MITIGATION_UCODE_NEEDED := by
  unfold mmio_select_mitigation
  split_ifs <;> simp_all

theorem mmio_select_frame (f : DetectionFacts) (o : Overrides)
    (s : BugsState) :
    (mmio_select_mitigation f o s).mds_mitigation = s.mds_mitigation ∧
    (mmio_select_mitigation f o s).taa_mitigation = s.taa_mitigation := by
  unfold mmio_select_mitigation
  split_ifs <;> simp_all

theorem mmio_select_user_clear (f : DetectionFacts) (o : Overrides)
    (s : BugsState) :
    (mmio_select_mitigation f o s).mds_user_clear =
      if f.bug_mmio_stale_data = true ∧ f.mitigations_off = false ∧
          s.mmio_mitigation ≠ MMIO_MITIGATION_OFF ∧
          (f.bug_mds = true ∨ (f.bug_taa = true ∧ f.feat_rtm = true)) then
        s.mds_user_clear + 1
      else s.mds_user_clear := by
  unfold mmio_select_mitigation
  split_ifs <;> simp_all

theorem mmio_select_idle_clear (f : DetectionFacts) (o : Overrides)
    (s : BugsState) :
    (mmio_select_mitigation f o s).mds_idle_clear =
      if f.bug_mmio_stale_data = true ∧ f.mitigations_off = false ∧
          s.mmio_mitigation ≠ MMIO_MITIGATION_OFF ∧
          f.arch_cap_fbsdp_no = false then s.mds_idle_clear + 1
      else s.mds_idle_clear := by
  unfold mmio_select_mitigation
  split_ifs <;> simp_all

theorem mds_select_full_ne_off (f : DetectionFacts) (o : Overrides)
    (s : BugsState) (hb : f.bug_mds = true) (hoff : f.mitigations_off = false)
    (hm : s.mds_mitigation = MDS_MITIGATION_FULL) :
    (mds_select_mitigation f o s).mds_mitigation ≠ MDS_MITIGATION_OFF := by
  rw [mds_select_choice]
  split_ifs <;> simp_all

theorem taa_select_ne_off (f : DetectionFacts) (o : Overrides)
    (s : BugsState) (hb : f.bug_taa = true) (hoff : f.mitigations_off = false)
    (ht : s.taa_mitigation ≠ TAA_MITIGATION_OFF) :
    (taa_select_mitigation f o s).taa_mitigation ≠ TAA_MITIGATION_OFF := by
  rw [taa_select_choice]
  split_ifs <;> simp_all

theorem mmio_select_ne_off (f : DetectionFacts) (o : Overrides)
    (s : BugsState) (hb : f.bug_mmio_stale_data = true)
    (hoff : f.mitigations_off = false)
    (hm : s.mmio_mitigation ≠ MMIO_MITIGATION_OFF) :
    (mmio_select_mitigation f o s).mmio_mitigation ≠
      MMIO_MITIGATION_OFF := by
  rw [mmio_select_choice]
  split_ifs <;> simp_all

theorem md_clear_update_mds_ne_off (f : DetectionFacts) (o : Overrides)
    (s : BugsState) (hb : f.bug_mds = true)
    (hoff : f.mitigations_off = false) :
    (md_clear_update_mds f o s).mds_mitigation ≠ MDS_MITIGATION_OFF := by
  unfold md_clear_update_mds
  split_ifs with h
  · exact mds_select_full_ne_off f o _ hb hoff rfl
  · simp_all

theorem md_clear_update_mds_frame (f : DetectionFacts) (o : Overrides)
    (s : BugsState) :
    (md_clear_update_mds f o s).taa_mitigation = s.taa_mitigation ∧
    (md_clear_update_mds f o s).mmio_mitigation = s.mmio_mitigation := by
  unfold md_clear_update_mds
  split_ifs with h
  · exact ⟨(mds_select_frame f o _).1, (mds_select_frame f o _).2.1⟩
  · exact ⟨rfl, rfl⟩

theorem md_clear_update_taa_ne_off (f : DetectionFacts) (o : Overrides)
    (s : BugsState) (hb : f.bug_taa = true)
    (hoff : f.mitigations_off = false) :
    (md_clear_update_taa f o s).taa_mitigation ≠ TAA_MITIGATION_OFF := by
  unfold md_clear_update_taa
  split_ifs with h
  · exact taa_select_ne_off f o _ hb hoff (by simp)
  · simp_all

theorem md_clear_update_taa_frame (f : DetectionFacts) (o : Overrides)
    (s : BugsState) :
    (md_clear_update_taa f o s).mds_mitigation = s.mds_mitigation ∧
    (md_clear_update_taa f o s).mmio_mitigation = s.mmio_mitigation := by
  unfold md_clear_update_taa
  split_ifs with h
  · exact ⟨(taa_select_frame f o _).1, (taa_select_frame f o _).2.1⟩
  · exact ⟨rfl, rfl⟩

theorem md_clear_update_mmio_ne_off (f : DetectionFacts) (o : Overrides)
    (s : BugsState) (hb : f.bug_mmio_stale_data = true)
    (hoff : f.mitigations_off = false) :
    (md_clear_update_mmio f o s).mmio_mitigation ≠
      MMIO_MITIGATION_OFF := by
  unfold md_clear_update_mmio
  split_ifs with h
  · exact mmio_select_ne_off f o _ hb hoff (by simp)
  · simp_all

theorem md_clear_update_mmio_frame (f : DetectionFacts) (o : Overrides)
    (s : BugsState) :
    (md_clear_update_mmio f o s).mds_mitigation = s.mds_mitigation ∧
    (md_clear_update_mmio f o s).taa_mitigation = s.taa_mitigation := by
  unfold md_clear_update_mmio
  split_ifs with h
  · exact (mmio_select_frame f o _)
  · exact ⟨rfl, rfl⟩

/-- After `md_clear_update_mitigation` with global mitigations enabled and
the shared key enabled, every affected triad member's choice is not Off. -/
theorem md_clear_update_forces (f : DetectionFacts) (o : Overrides)
    (s : BugsState) (hoff : f.mitigations_off = false)
    (hkey : 0 < (md_clear_update_mitigation f o s).mds_user_clear) :
    (f.bug_mds = true →
      (md_clear_update_mitigation f o s).mds_mitigation ≠
        MDS_MITIGATION_OFF) ∧
    (f.bug_taa = true →
      (md_clear_update_mitigation f o s).taa_mitigation ≠
        TAA_MITIGATION_OFF) ∧
    (f.bug_mmio_stale_data = true →
      (md_clear_update_mitigation f o s).mmio_mitigation ≠
        MMIO_MITIGATION_OFF) := by
  unfold md_clear_update_mitigation at hkey ⊢
  rw [hoff] at hkey ⊢
  simp only [Bool.false_eq_true, if_false] at hkey ⊢
  by_cases hz : s.mds_user_clear = 0
  · rw [if_pos hz] at hkey
    omega
  rw [if_neg hz]
  refine ⟨fun hb => ?_, fun hb => ?_, fun hb => ?_⟩
  · rw [(md_clear_update_mmio_frame f o _).1,
      (md_clear_update_taa_frame f o _).1]
    exact md_clear_update_mds_ne_off f o s hb hoff
  · rw [(md_clear_update_mmio_frame f o _).2]
    exact md_clear_update_taa_ne_off f o _ hb hoff
  · exact md_clear_update_mmio_ne_off f o _ hb hoff

/-! ### C4: compound taa=off + mds=off override law -/

/-- Claim C4, amended: given TAA-affected hardware with TSX (RTM) enabled,
if both the tsx_async_abort= and mds= overrides are "off" and MMIO Stale
Data does not independently enable the shared buffer-clear key (it is not
affected, or overridden off, or mitigations are globally disabled), then
TAA's final choice after the full MDS/TAA/MMIO phase is
`TAA_MITIGATION_OFF`.  (Without RTM the selector reports TSX-disabled
before consulting the overrides, and an active MMIO mitigation re-enables
TAA via `md_clear_update_mitigation`.) -/
theorem taa_compound_off (f : DetectionFacts) (o : Overrides)
    (mmO : mmio_mitigations) (g : gds_mitigations)
    (hb : f.bug_taa = true) (hr : f.feat_rtm = true)
    (hmm : f.bug_mmio_stale_data = false ∨ mmO = MMIO_MITIGATION_OFF ∨
      f.mitigations_off = true) :
    (md_clear_select_mitigation f o
      (initState MDS_MITIGATION_OFF TAA_MITIGATION_OFF mmO
        g)).taa_mitigation = TAA_MITIGATION_OFF := by
  have h1 : mds_select_mitigation f o
      (initState MDS_MITIGATION_OFF TAA_MITIGATION_OFF mmO g) =
      initState MDS_MITIGATION_OFF TAA_MITIGATION_OFF mmO g := by
    unfold mds_select_mitigation initState
    split_ifs <;> simp_all
  have h2 : taa_select_mitigation f o
      (initState MDS_MITIGATION_OFF TAA_MITIGATION_OFF mmO g) =
      initState MDS_MITIGATION_OFF TAA_MITIGATION_OFF mmO g := by
    unfold taa_select_mitigation initState
    split_ifs <;> simp_all
  have h3 : mmio_select_mitigation f o
      (initState MDS_MITIGATION_OFF TAA_MITIGATION_OFF mmO g) =
      initState MDS_MITIGATION_OFF TAA_MITIGATION_OFF
        MMIO_MITIGATION_OFF g := by
    unfold mmio_select_mitigation initState
    split_ifs <;> simp_all
  have h4 : md_clear_update_mitigation f o
      (initState MDS_MITIGATION_OFF TAA_MITIGATION_OFF
        MMIO_MITIGATION_OFF g) =
      initState MDS_MITIGATION_OFF TAA_MITIGATION_OFF
        MMIO_MITIGATION_OFF g := by
    unfold md_clear_update_mitigation initState
    split_ifs <;> simp_all
  unfold md_clear_select_mitigation
  rw [h1, h2, h3, h4]
  rfl

/-- Concrete facts for C4's counterexample: TAA-affected with RTM and
MD_CLEAR, also MMIO-affected, no overrides besides taa=off and mds=off. -/
def fC4 : DetectionFacts :=
  { factsBase with
    bug_taa := true
    feat_rtm := true
    feat_md_clear := true
    bug_mmio_stale_data := true }

/-- Claim C4 counterexample: on TAA-affected hardware with both the TAA and
MDS overrides "off" but MMIO Stale Data affected (and not overridden), the
MMIO selector enables the shared `mds_user_clear` key and
`md_clear_update_mitigation` re-selects TAA to `TAA_MITIGATION_VERW`: the
final TAA choice is not Off. -/
theorem taa_compound_off_cex :
    (md_clear_select_mitigation fC4 ovBase
      (initState MDS_MITIGATION_OFF TAA_MITIGATION_OFF MMIO_MITIGATION_VERW
        GDS_MITIGATION_FULL)).taa_mitigation = TAA_MITIGATION_VERW ∧
    TAA_MITIGATION_VERW ≠ TAA_MITIGATION_OFF := by
  decide

/-- Concrete facts for C4's witness: as `fC4` but MMIO not affected. -/
def fC4w : DetectionFacts :=
  { factsBase with
    bug_taa := true
    feat_rtm := true
    feat_md_clear := true }

/-- Witness for C4's amended theorem at a concrete input. -/
theorem taa_compound_off_witness :
    (md_clear_select_mitigation fC4w ovBase
      (initState MDS_MITIGATION_OFF TAA_MITIGATION_OFF MMIO_MITIGATION_VERW
        GDS_MITIGATION_FULL)).taa_mitigation = TAA_MITIGATION_OFF :=
  taa_compound_off fC4w ovBase MMIO_MITIGATION_VERW GDS_MITIGATION_FULL
    rfl rfl (Or.inl rfl)

/-! ### C9: the shared buffer-clear key forces every affected triad member
to a non-Off final choice -/

/-- Claim C9: after `md_clear_select_mitigation`, if the shared
`mds_user_clear` key ended up enabled (reference count positive) and global
mitigations are not disabled, then every affected member of the
MDS/TAA/MMIO triad has a non-Off final choice: `md_clear_update_mitigation`
overrides a per-kind "off" override and re-selects that member. -/
theorem md_clear_shared_key_forces_triad (f : DetectionFacts)
    (o : Overrides) (m : mds_mitigations) (t : taa_mitigations)
    (mm : mmio_mitigations) (g : gds_mitigations)
    (hoff : f.mitigations_off = false)
    (hkey : 0 < (md_clear_select_mitigation f o
      (initState m t mm g)).mds_user_clear) :
    (f.bug_mds = true →
      (md_clear_select_mitigation f o
        (initState m t mm g)).mds_mitigation ≠ MDS_MITIGATION_OFF) ∧
    (f.bug_taa = true →
      (md_clear_select_mitigation f o
        (initState m t mm g)).taa_mitigation ≠ TAA_MITIGATION_OFF) ∧
    (f.bug_mmio_stale_data = true →
      (md_clear_select_mitigation f o
        (initState m t mm g)).mmio_mitigation ≠ MMIO_MITIGATION_OFF) := by
  unfold md_clear_select_mitigation at hkey ⊢
  exact md_clear_update_forces f o _ hoff hkey

/-- Concrete facts for C9's witness: MDS and TAA affected, RTM and
MD_CLEAR present. -/
def fC9 : DetectionFacts :=
  { factsBase with
    bug_taa := true
    feat_rtm := true
    feat_md_clear := true
    bug_mds := true }

/-- Witness for C9 at a concrete input: MDS overridden off, TAA affected
with defaults enabling the shared key, MDS re-enabled to a non-Off mode. -/
theorem md_clear_shared_key_forces_triad_witness :
    (md_clear_select_mitigation fC9 ovBase
      (initState MDS_MITIGATION_OFF TAA_MITIGATION_VERW MMIO_MITIGATION_VERW
        GDS_MITIGATION_FULL)).mds_mitigation ≠ MDS_MITIGATION_OFF :=
  (md_clear_shared_key_forces_triad fC9 ovBase MDS_MITIGATION_OFF
    TAA_MITIGATION_VERW MMIO_MITIGATION_VERW GDS_MITIGATION_FULL rfl
    (by decide)).1 rfl

/-! ### C10: SRBDS priority chain and MSR-update gating -/

/-- Claim C10: on SRBDS-affected hardware, starting from the
`SRBDS_MITIGATION_FULL` default, the selector checks its conditions in
fixed priority order — MDS_NO without RTM and without the MMIO bug yields
TSX-disabled, else a hypervisor yields the Hypervisor-unknown choice, else
missing SRBDS_CTRL microcode yields Ucode-needed — and the "off" override
(or global mitigations-off) yields the Off choice only when none of those
holds; `update_srbds_msr` skips the MSR write for the Hypervisor and
Ucode-needed outcomes. -/
theorem srbds_priority_chain (f : DetectionFacts) (o : Overrides)
    (s : BugsState) (prior : Bool) (hb : f.bug_srbds = true)
    (hs : s.srbds_mitigation = SRBDS_MITIGATION_FULL) :
    (f.arch_cap_mds_no = true ∧ f.feat_rtm = false ∧
        f.bug_mmio_stale_data = false →
      (srbds_select_mitigation f o s).srbds_mitigation =
        SRBDS_MITIGATION_TSX_OFF) ∧
    (¬(f.arch_cap_mds_no = true ∧ f.feat_rtm = false ∧
        f.bug_mmio_stale_data = false) → f.feat_hypervisor = true →
      (srbds_select_mitigation f o s).srbds_mitigation =
        SRBDS_MITIGATION_HYPERVISOR) ∧
    (¬(f.arch_cap_mds_no = true ∧ f.feat_rtm = false ∧
        f.bug_mmio_stale_data = false) → f.feat_hypervisor = false →
      f.feat_srbds_ctrl = false →
      (srbds_select_mitigation f o s).srbds_mitigation =
        SRBDS_MITIGATION_UCODE_NEEDED) ∧
    ((srbds_select_mitigation f o s).srbds_mitigation =
        SRBDS_MITIGATION_OFF ↔
      ((f.mitigations_off = true ∨ o.srbds_off = true) ∧
        ¬(f.arch_cap_mds_no = true ∧ f.feat_rtm = false ∧
          f.bug_mmio_stale_data = false) ∧
        f.feat_hypervisor = false ∧ f.feat_srbds_ctrl = true)) ∧
    ((srbds_select_mitigation f o s).srbds_mitigation =
        SRBDS_MITIGATION_HYPERVISOR ∨
      (srbds_select_mitigation f o s).srbds_mitigation =
        SRBDS_MITIGATION_UCODE_NEEDED →
      update_srbds_msr f
        (srbds_select_mitigation f o s).srbds_mitigation prior = none) := by
  unfold srbds_select_mitigation update_srbds_msr
  split_ifs <;> simp_all

/-- Concrete facts for C10: SRBDS-affected host under a hypervisor with the
srbds=off override requested. -/
def fC10 : DetectionFacts :=
  { factsBase with
    bug_srbds := true
    feat_hypervisor := true }

/-- Witness for C10 at a concrete input: under a hypervisor the srbds=off
disable request is ignored and the MSR write is skipped. -/
theorem srbds_priority_chain_witness :
    (srbds_select_mitigation fC10 { ovBase with srbds_off := true }
      stateDefaults).srbds_mitigation = SRBDS_MITIGATION_HYPERVISOR :=
  (srbds_priority_chain fC10 { ovBase with srbds_off := true }
    stateDefaults false rfl rfl).2.1 (by decide) rfl

/-! ### C6: the GDS hardware lock law -/

/-- Claim C6, amended: on GDS-affected, non-hypervisor hardware with the
microcode control present and the platform reporting the control
hardware-locked, with global mitigations NOT disabled, starting from the
gather_data_sampling=off override every run of the selector (the first and
all re-runs) finalizes the locked-enabled choice
`GDS_MITIGATION_FULL_LOCKED`, and the "Mitigation locked. Disable failed."
warning is logged exactly once, on the first run only.  (With mitigations=off
the selector re-sets the choice to Off on every run and re-logs the warning
each time.) -/
theorem gds_lock_law (f : DetectionFacts) (hb : f.bug_gds = true)
    (hh : f.feat_hypervisor = false) (hc : f.arch_cap_gds_ctrl = true)
    (hl : f.gds_mitg_locked = true) (hoff : f.mitigations_off = false)
    (n : Nat) :
    ((gds_select_mitigation f)^[n + 1]
      (initState MDS_MITIGATION_FULL TAA_MITIGATION_VERW
        MMIO_MITIGATION_VERW GDS_MITIGATION_OFF)).gds_mitigation =
      GDS_MITIGATION_FULL_LOCKED ∧
    ((gds_select_mitigation f)^[n + 1]
      (initState MDS_MITIGATION_FULL TAA_MITIGATION_VERW
        MMIO_MITIGATION_VERW GDS_MITIGATION_OFF)).gds_lock_warns = 1 := by
  induction n with
  | zero =>
    simp only [Nat.zero_add, Function.iterate_one]
    unfold gds_select_mitigation initState
    split_ifs <;> simp_all
  | succ k ih =>
    rw [Function.iterate_succ_apply']
    rcases ih with ⟨ihg, ihw⟩
    set s := (gds_select_mitigation f)^[k + 1]
      (initState MDS_MITIGATION_FULL TAA_MITIGATION_VERW
        MMIO_MITIGATION_VERW GDS_MITIGATION_OFF) with hs
    unfold gds_select_mitigation
    split_ifs <;> simp_all

/-- Concrete facts for C6: GDS-affected bare-metal host with the microcode
control present and hardware-locked, global mitigations enabled. -/
def fC6 : DetectionFacts :=
  { factsBase with
    bug_gds := true
    arch_cap_gds_ctrl := true
    gds_mitg_locked := true }

/-- Claim C6 counterexample: with mitigations=off on the same locked
hardware, the selector re-sets the choice to Off on every run, so the
"Mitigation locked. Disable failed." warning is logged again on the second
run: the warning count is 2, not 1. -/
theorem gds_lock_law_cex :
    (gds_select_mitigation { fC6 with mitigations_off := true }
      (gds_select_mitigation { fC6 with mitigations_off := true }
        (initState MDS_MITIGATION_FULL TAA_MITIGATION_VERW
          MMIO_MITIGATION_VERW GDS_MITIGATION_OFF))).gds_lock_warns = 2 ∧
    (2 : Nat) ≠ 1 := by
  decide

/-- Witness for C6's amended theorem at a concrete input (two runs). -/
theorem gds_lock_law_witness :
    ((gds_select_mitigation fC6)^[2]
      (initState MDS_MITIGATION_FULL TAA_MITIGATION_VERW
        MMIO_MITIGATION_VERW GDS_MITIGATION_OFF)).gds_mitigation =
      GDS_MITIGATION_FULL_LOCKED ∧
    ((gds_select_mitigation fC6)^[2]
      (initState MDS_MITIGATION_FULL TAA_MITIGATION_VERW
        MMIO_MITIGATION_VERW GDS_MITIGATION_OFF)).gds_lock_warns = 1 :=
  gds_lock_law fC6 rfl rfl rfl rfl rfl 1

/-! ### C3: the not-affected / mitigations-off short-circuit -/

/-- Claim C3, amended: for every entry state, (a) MDS: not affected or
mitigations off sets the Off choice and changes nothing else; (b) TAA: not
affected sets Off and changes nothing else; (c) TAA affected with RTM and
mitigations off sets Off; (d) TAA affected without RTM sets TSX-disabled
(even with mitigations off); (e) MMIO: not affected or mitigations off sets
Off and changes nothing else; (f) RETBleed: not affected or mitigations off
leaves the whole state unchanged (the choice stays at its boot-time None);
(g) SRBDS: not affected leaves the whole state unchanged — the choice
variable remains its prior default (Full), not Off; (h) GDS: not affected
leaves the whole state unchanged.  In particular no selector increments any
effect count in these cases, and the affectedness check is first; but the
SRBDS/GDS choice variables are not set to Off, and the mitigations-off
override is consulted late in the SRBDS/GDS/TAA chains. -/
theorem not_affected_short_circuit (f : DetectionFacts) (o : Overrides)
    (s : BugsState) :
    (f.bug_mds = false ∨ f.mitigations_off = true →
      mds_select_mitigation f o s =
        { s with mds_mitigation := MDS_MITIGATION_OFF }) ∧
    (f.bug_taa = false →
      taa_select_mitigation f o s =
        { s with taa_mitigation := TAA_MITIGATION_OFF }) ∧
    (f.bug_taa = true → f.feat_rtm = true → f.mitigations_off = true →
      taa_select_mitigation f o s =
        { s with taa_mitigation := TAA_MITIGATION_OFF }) ∧
    (f.bug_taa = true → f.feat_rtm = false →
      taa_select_mitigation f o s =
        { s with taa_mitigation := TAA_MITIGATION_TSX_DISABLED }) ∧
    (f.bug_mmio_stale_data = false ∨ f.mitigations_off = true →
      mmio_select_mitigation f o s =
        { s with mmio_mitigation := MMIO_MITIGATION_OFF }) ∧
    (f.bug_retbleed = false ∨ f.mitigations_off = true →
      retbleed_select_mitigation f o s = s) ∧
    (f.bug_srbds = false → srbds_select_mitigation f o s = s) ∧
    (f.bug_gds = false → gds_select_mitigation f s = s) := by
  refine ⟨fun h => ?_, fun h => ?_, fun h1 h2 h3 => ?_, fun h1 h2 => ?_,
    fun h => ?_, fun h => ?_, fun h => ?_, fun h => ?_⟩
  · unfold mds_select_mitigation
    split_ifs <;> simp_all
  · unfold taa_select_mitigation
    split_ifs <;> simp_all
  · unfold taa_select_mitigation
    split_ifs <;> simp_all
  · unfold taa_select_mitigation
    split_ifs <;> simp_all
  · unfold mmio_select_mitigation
    split_ifs <;> simp_all
  · unfold retbleed_select_mitigation
    split_ifs <;> simp_all
  · unfold srbds_select_mitigation
    split_ifs <;> simp_all
  · unfold gds_select_mitigation
    split_ifs <;> simp_all

/-- Claim C3 counterexample: with SRBDS not affected, the selector leaves
the SRBDS choice at its `SRBDS_MITIGATION_FULL` default, which is not the
Off variant the claim requires. -/
theorem not_affected_short_circuit_cex :
    (srbds_select_mitigation factsBase ovBase
      stateDefaults).srbds_mitigation = SRBDS_MITIGATION_FULL ∧
    SRBDS_MITIGATION_FULL ≠ SRBDS_MITIGATION_OFF := by
  decide

/-- Facts for C3's witness: nothing affected, mitigations globally off. -/
def fC3a : DetectionFacts := { factsBase with mitigations_off := true }

/-- Facts for C3's witness: TAA affected with RTM, mitigations off. -/
def fC3c : DetectionFacts :=
  { factsBase with
    bug_taa := true
    feat_rtm := true
    mitigations_off := true }

/-- Facts for C3's witness: TAA affected without RTM. -/
def fC3d : DetectionFacts := { factsBase with bug_taa := true }

/-- Witness for C3's amended theorem at concrete inputs. -/
theorem not_affected_short_circuit_witness :
    mds_select_mitigation fC3a ovBase stateDefaults =
      { stateDefaults with mds_mitigation := MDS_MITIGATION_OFF } ∧
    taa_select_mitigation fC3c ovBase stateDefaults =
      { stateDefaults with taa_mitigation := TAA_MITIGATION_OFF } ∧
    taa_select_mitigation fC3d ovBase stateDefaults =
      { stateDefaults with taa_mitigation := TAA_MITIGATION_TSX_DISABLED } ∧
    srbds_select_mitigation factsBase ovBase stateDefaults =
      stateDefaults :=
  ⟨(not_affected_short_circuit fC3a ovBase stateDefaults).1 (Or.inr rfl),
   (not_affected_short_circuit fC3c ovBase stateDefaults).2.2.1
     rfl rfl rfl,
   (not_affected_short_circuit fC3d ovBase stateDefaults).2.2.2.1 rfl rfl,
   (not_affected_short_circuit factsBase ovBase stateDefaults).2.2.2.2.2.2.1
     rfl⟩

/-! ### C8: unknown override tokens -/

/-- Claim C8, amended: an unknown override token is handled differently per
parser.  The spectre_v2 and spec_store_bypass_disable parsers fall back to
the AUTO command with exactly one warning.  The retbleed parser emits
exactly one warning per unknown token and leaves the command at its prior
(default auto) value.  The mds parser (like the tsx_async_abort,
mmio_stale_data, srbds and gather_data_sampling parsers, which share its
shape) silently ignores an unknown token: the state keeps its default
(auto-equivalent) policy and NO warning is emitted. -/
theorem unknown_token_fallback (f : DetectionFacts) (tok : String)
    (st : MdsCmdState) :
    (f.mitigations_off = false → spectre_v2_match_option tok = none →
      spectre_v2_parse_cmdline f false (some tok) =
        (SPECTRE_V2_CMD_AUTO, 1)) ∧
    (ssb_match_option tok = none →
      ssb_parse_cmdline_fn false false (some tok) =
        (SPEC_STORE_BYPASS_CMD_AUTO, 1)) ∧
    (tok ≠ "off" → tok ≠ "full" → tok ≠ "full,nosmt" →
      mds_cmdline true tok st = (st, 0)) ∧
    (tok ≠ "off" → tok ≠ "auto" → tok ≠ "unret" → tok ≠ "ibpb" →
      tok ≠ "nosmt" →
      retbleed_parse_cmdline [tok] =
        ({ retbleed_cmd := RETBLEED_CMD_AUTO, retbleed_nosmt := false },
          1)) := by
  refine ⟨fun hm hu => ?_, fun hu => ?_, fun h1 h2 h3 => ?_,
    fun h1 h2 h3 h4 h5 => ?_⟩
  · unfold spectre_v2_parse_cmdline
    rw [hm]
    simp [hu]
  · unfold ssb_parse_cmdline_fn
    simp [hu]
  · unfold mds_cmdline
    simp [h1, h2, h3]
  · unfold retbleed_parse_cmdline
    simp [retbleed_parse_tokens, h1, h2, h3, h4, h5]

/-- Claim C8 counterexample: the mds parser, given the unknown token
"bogus" on MDS-affected hardware, emits zero warnings (not one) and leaves
the state unchanged — unknown tokens are silently ignored, not warned
about, for this kind's parser. -/
theorem unknown_token_fallback_cex :
    mds_cmdline true "bogus"
      { mds_mitigation := MDS_MITIGATION_FULL, mds_nosmt := false } =
      ({ mds_mitigation := MDS_MITIGATION_FULL, mds_nosmt := false }, 0) ∧
    (0 : Nat) ≠ 1 := by
  decide

/-- Witness for C8's amended theorem at the concrete token "bogus". -/
theorem unknown_token_fallback_witness :
    spectre_v2_parse_cmdline factsBase false (some "bogus") =
      (SPECTRE_V2_CMD_AUTO, 1) ∧
    ssb_parse_cmdline_fn false false (some "bogus") =
      (SPEC_STORE_BYPASS_CMD_AUTO, 1) ∧
    retbleed_parse_cmdline ["bogus"] =
      ({ retbleed_cmd := RETBLEED_CMD_AUTO, retbleed_nosmt := false },
        1) :=
  ⟨(unknown_token_fallback factsBase "bogus"
      { mds_mitigation := MDS_MITIGATION_FULL, mds_nosmt := false }).1
    rfl (by decide),
   (unknown_token_fallback factsBase "bogus"
      { mds_mitigation := MDS_MITIGATION_FULL, mds_nosmt := false }).2.1
    (by decide),
   (unknown_token_fallback factsBase "bogus"
      { mds_mitigation := MDS_MITIGATION_FULL, mds_nosmt := false }).2.2.2
    (by decide) (by decide) (by decide) (by decide) (by decide)⟩

/-! ### C2: idempotence of re-running a selector -/

theorem srbds_select_choice (f : DetectionFacts) (o : Overrides)
    (s : BugsState) :
    (srbds_select_mitigation f o s).srbds_mitigation =
      if f.bug_srbds = false then s.srbds_mitigation
      else if f.arch_cap_mds_no = true ∧ f.feat_rtm = false ∧
          f.bug_mmio_stale_data = false then SRBDS_MITIGATION_TSX_OFF
      else if f.feat_hypervisor = true then SRBDS_MITIGATION_HYPERVISOR
      else if f.feat_srbds_ctrl = false then SRBDS_MITIGATION_UCODE_NEEDED
      else if f.mitigations_off = true ∨ o.srbds_off = true then
        SRBDS_MITIGATION_OFF
      else s.srbds_mitigation := by
  unfold srbds_select_mitigation
  split_ifs <;> simp_all

theorem gds_select_choice (f : DetectionFacts) (s : BugsState) :
    (gds_select_mitigation f s).gds_mitigation =
      if f.bug_gds = false then s.gds_mitigation
      else if f.feat_hypervisor = true then GDS_MITIGATION_HYPERVISOR
      else if f.arch_cap_gds_ctrl = false then
        (if (if f.mitigations_off = true then GDS_MITIGATION_OFF
              else s.gds_mitigation) = GDS_MITIGATION_FORCE then
          GDS_MITIGATION_FORCE
        else GDS_MITIGATION_UCODE_NEEDED)
      else if f.gds_mitg_locked = true then GDS_MITIGATION_FULL_LOCKED
      else if (if f.mitigations_off = true then GDS_MITIGATION_OFF
            else s.gds_mitigation) = GDS_MITIGATION_FORCE then
        GDS_MITIGATION_FULL
      else if f.mitigations_off = true then GDS_MITIGATION_OFF
      else s.gds_mitigation := by
  unfold gds_select_mitigation
  split_ifs <;> simp_all

theorem retbleed_select_choice (f : DetectionFacts) (o : Overrides)
    (s : BugsState) :
    (retbleed_select_mitigation f o s).retbleed_mitigation =
      if f.bug_retbleed = false ∨ f.mitigations_off = true then
        s.retbleed_mitigation
      else if o.retbleed_cmd = RETBLEED_CMD_OFF then s.retbleed_mitigation
      else retbleed_intel_override f
        (retbleed_cmd_choice f o s.retbleed_mitigation) := by
  unfold retbleed_select_mitigation
  split_ifs <;> simp_all

theorem retbleed_override_idem (f : DetectionFacts) (o : Overrides)
    (r : retbleed_mitigation) :
    retbleed_intel_override f (retbleed_cmd_choice f o
        (retbleed_intel_override f (retbleed_cmd_choice f o r))) =
      retbleed_intel_override f (retbleed_cmd_choice f o r) := by
  unfold retbleed_intel_override retbleed_cmd_choice
  cases f.spectre_v2_enabled <;> split_ifs <;> simp_all

theorem taa_select_keeps_mds (f : DetectionFacts) (o : Overrides)
    (s : BugsState) :
    (taa_select_mitigation f o s).mds_mitigation = s.mds_mitigation :=
  (taa_select_frame f o s).1

/-- Claim C2, amended: invoking any one kind's selector twice in succession
with unchanged detection facts and overrides yields the same
MitigationChoice as one invocation — but the effect reference counts are
NOT unchanged: a second invocation of a selector whose selected mode
requests the shared buffer-clear effect increments the count again (see the
counterexample).  In the modelled boot flow no selector is ever re-run with
its own increment already applied: `md_clear_update_mitigation` re-runs a
kind only when that kind's choice is Off, i.e. when it has not
incremented. -/
theorem selector_choice_idempotent (f : DetectionFacts) (o : Overrides)
    (s : BugsState) :
    (mds_select_mitigation f o
        (mds_select_mitigation f o s)).mds_mitigation =
      (mds_select_mitigation f o s).mds_mitigation ∧
    (taa_select_mitigation f o
        (taa_select_mitigation f o s)).taa_mitigation =
      (taa_select_mitigation f o s).taa_mitigation ∧
    (mmio_select_mitigation f o
        (mmio_select_mitigation f o s)).mmio_mitigation =
      (mmio_select_mitigation f o s).mmio_mitigation ∧
    (srbds_select_mitigation f o
        (srbds_select_mitigation f o s)).srbds_mitigation =
      (srbds_select_mitigation f o s).srbds_mitigation ∧
    (gds_select_mitigation f
        (gds_select_mitigation f s)).gds_mitigation =
      (gds_select_mitigation f s).gds_mitigation ∧
    (retbleed_select_mitigation f o
        (retbleed_select_mitigation f o s)).retbleed_mitigation =
      (retbleed_select_mitigation f o s).retbleed_mitigation := by
  refine ⟨?_, ?_, ?_, ?_, ?_, ?_⟩
  · rw [mds_select_choice, mds_select_choice]
    split_ifs <;> simp_all
  · rw [taa_select_choice, taa_select_choice, taa_select_keeps_mds]
    split_ifs <;> simp_all
  · rw [mmio_select_choice, mmio_select_choice]
    split_ifs <;> simp_all
  · rw [srbds_select_choice, srbds_select_choice]
    split_ifs <;> simp_all
  · rw [gds_select_choice, gds_select_choice]
    split_ifs <;> simp_all
  · rw [retbleed_select_choice, retbleed_select_choice]
    split_ifs <;> simp_all [retbleed_override_idem]

/-- Concrete facts for C2's counterexample: MDS-affected with MD_CLEAR. -/
def fC2 : DetectionFacts :=
  { factsBase with
    bug_mds := true
    feat_md_clear := true }

/-- Claim C2 counterexample: two consecutive MDS selector runs with
unchanged facts/override leave `mds_user_clear` at reference count 2 where
one run gives 1 — the count is double-incremented, refuting count
idempotence (the choice, `MDS_MITIGATION_FULL`, is unchanged). -/
theorem selector_choice_idempotent_cex :
    (mds_select_mitigation fC2 ovBase
      (mds_select_mitigation fC2 ovBase stateDefaults)).mds_user_clear =
      2 ∧
    (mds_select_mitigation fC2 ovBase stateDefaults).mds_user_clear = 1 ∧
    (2 : Nat) ≠ 1 := by
  decide

/-! ### C5: the "clear CPU buffers on idle" effect across SMT updates -/

theorem md_clear_update_mds_idle (f : DetectionFacts) (o : Overrides)
    (s : BugsState) :
    (md_clear_update_mds f o s).mds_idle_clear = s.mds_idle_clear := by
  unfold md_clear_update_mds
  split_ifs with h
  · exact (mds_select_frame f o _).2.2.1
  · rfl

theorem md_clear_update_taa_idle (f : DetectionFacts) (o : Overrides)
    (s : BugsState) :
    (md_clear_update_taa f o s).mds_idle_clear = s.mds_idle_clear := by
  unfold md_clear_update_taa
  split_ifs with h
  · exact (taa_select_frame f o _).2.2.1
  · rfl

/-- After the full boot-time MDS/TAA/MMIO selection phase, the
`mds_idle_clear` reference count is 1 exactly when the MMIO mitigation
ended up active and the `ARCH_CAP_FBSDP_NO` capability is absent, and 0
otherwise: only `mmio_select_mitigation` touches the idle key during
selection. -/
theorem md_clear_select_idle (f : DetectionFacts) (o : Overrides)
    (m : mds_mitigations) (t : taa_mitigations) (mm : mmio_mitigations)
    (g : gds_mitigations) :
    (md_clear_select_mitigation f o (initState m t mm g)).mds_idle_clear =
      if (md_clear_select_mitigation f o
            (initState m t mm g)).mmio_mitigation ≠ MMIO_MITIGATION_OFF ∧
          f.arch_cap_fbsdp_no = false then 1 else 0 := by
  unfold md_clear_select_mitigation
  set s1 := mds_select_mitigation f o (initState m t mm g) with hs1
  set s2 := taa_select_mitigation f o s1 with hs2
  set s3 := mmio_select_mitigation f o s2 with hs3
  have h1idle : s1.mds_idle_clear = 0 := by
    rw [hs1, (mds_select_frame f o _).2.2.1]
    rfl
  have h1mmio : s1.mmio_mitigation = mm := by
    rw [hs1, (mds_select_frame f o _).2.1]
    rfl
  have h2idle : s2.mds_idle_clear = 0 := by
    rw [hs2, (taa_select_frame f o _).2.2.1, h1idle]
  have h2mmio : s2.mmio_mitigation = mm := by
    rw [hs2, (taa_select_frame f o _).2.1, h1mmio]
  have h3idle : s3.mds_idle_clear =
      if f.bug_mmio_stale_data = true ∧ f.mitigations_off = false ∧
        mm ≠ MMIO_MITIGATION_OFF ∧ f.arch_cap_fbsdp_no = false
      then 1 else 0 := by
    rw [hs3, mmio_select_idle_clear, h2mmio, h2idle]
  have h3mmio : s3.mmio_mitigation ≠ MMIO_MITIGATION_OFF ↔
      (f.bug_mmio_stale_data = true ∧ f.mitigations_off = false ∧
        mm ≠ MMIO_MITIGATION_OFF) := by
    rw [hs3, mmio_select_choice, h2mmio]
    cases hbug : f.bug_mmio_stale_data <;>
      cases hmo : f.mitigations_off <;> cases mm <;> split_ifs <;>
      simp_all
  unfold md_clear_update_mitigation
  by_cases hofff : f.mitigations_off = true
  · simp only [hofff, if_true]
    rw [h3idle]
    have hno : ¬(s3.mmio_mitigation ≠ MMIO_MITIGATION_OFF) := by
      rw [h3mmio]
      simp [hofff]
    simp [hno, hofff]
  simp only [hofff, Bool.false_eq_true, if_false]
  by_cases hz : s3.mds_user_clear = 0
  · simp only [hz, if_true]
    rw [h3idle]
    simp only [h3mmio]
    split_ifs <;> simp_all
  simp only [hz, if_false]
  set s4 := md_clear_update_mds f o s3 with hs4
  set s5 := md_clear_update_taa f o s4 with hs5
  have h5idle : s5.mds_idle_clear = s3.mds_idle_clear := by
    rw [hs5, md_clear_update_taa_idle, hs4, md_clear_update_mds_idle]
  have h5mmio : s5.mmio_mitigation = s3.mmio_mitigation := by
    rw [hs5, (md_clear_update_taa_frame f o _).2, hs4,
      (md_clear_update_mds_frame f o _).2]
  unfold md_clear_update_mmio
  by_cases hstep : s5.mmio_mitigation = MMIO_MITIGATION_OFF ∧
      f.bug_mmio_stale_data = true
  · rw [if_pos hstep]
    have hmmOFF : ¬(f.bug_mmio_stale_data = true ∧
        f.mitigations_off = false ∧ mm ≠ MMIO_MITIGATION_OFF) := by
      intro hcon
      exact (h3mmio.mpr hcon) (h5mmio ▸ hstep.1)
    have h3idle0 : s3.mds_idle_clear = 0 := by
      rw [h3idle, if_neg]
      intro hcon
      exact hmmOFF ⟨hcon.1, hcon.2.1, hcon.2.2.1⟩
    have he1 : ({ s5 with mmio_mitigation := MMIO_MITIGATION_VERW } :
        BugsState).mds_idle_clear = 0 := by
      have hproj : ({ s5 with mmio_mitigation := MMIO_MITIGATION_VERW } :
          BugsState).mds_idle_clear = s5.mds_idle_clear := rfl
      rw [hproj, h5idle, h3idle0]
    have he2 : ({ s5 with mmio_mitigation := MMIO_MITIGATION_VERW } :
        BugsState).mmio_mitigation = MMIO_MITIGATION_VERW := rfl
    rw [mmio_select_idle_clear, mmio_select_choice, he1, he2]
    clear hs1 hs2 hs3 hs4 hs5 h3idle h3mmio h5idle h5mmio h1idle h1mmio
      h2idle h2mmio
    cases hfb : f.arch_cap_fbsdp_no <;> split_ifs <;> simp_all
  · rw [if_neg hstep]
    rw [h5idle, h5mmio, h3idle]
    simp only [h3mmio]
    clear hs1 hs2 hs3 hs4 hs5 h3idle h3mmio h5idle h5mmio h1idle h1mmio
      h2idle h2mmio
    split_ifs <;> simp_all

/-- The condition under which the `mds_idle_clear` key is enabled in every
reachable post-`arch_smt_update` state: either the MMIO mitigation is active
and `ARCH_CAP_FBSDP_NO` is absent (idle clearing required irrespective of
SMT), or the hardware is MSBDS-only with an active MDS mitigation and SMT
currently active. -/
abbrev idleFormula (f : DetectionFacts) (s : BugsState) (b : Bool) : Prop :=
  (s.mmio_mitigation ≠ MMIO_MITIGATION_OFF ∧
    f.arch_cap_fbsdp_no = false) ∨
  (f.bug_msbds_only = true ∧
    (s.mds_mitigation = MDS_MITIGATION_FULL ∨
     s.mds_mitigation = MDS_MITIGATION_VMWERV) ∧ b = true)

theorem arch_smt_update_frame (f : DetectionFacts) (b : Bool)
    (s : BugsState) :
    (arch_smt_update f b s).mds_mitigation = s.mds_mitigation ∧
    (arch_smt_update f b s).mmio_mitigation = s.mmio_mitigation := by
  unfold arch_smt_update update_mds_branch_idle
  cases hm : s.mds_mitigation <;> split_ifs <;> simp_all

theorem arch_smt_update_invariant (f : DetectionFacts) (b bp : Bool)
    (s : BugsState)
    (hinv : s.mds_idle_clear = if idleFormula f s bp then 1 else 0) :
    (arch_smt_update f b s).mds_idle_clear =
      if idleFormula f (arch_smt_update f b s) b then 1 else 0 := by
  have hform : idleFormula f (arch_smt_update f b s) b =
      idleFormula f s b := by
    unfold idleFormula
    rw [(arch_smt_update_frame f b s).1, (arch_smt_update_frame f b s).2]
  simp only [hform]
  unfold arch_smt_update update_mds_branch_idle
  unfold idleFormula at hinv ⊢
  cases hm : s.mds_mitigation <;> cases b <;>
    split_ifs at hinv ⊢ <;> simp_all

theorem smtRuns_frame (f : DetectionFacts) (bs : List Bool)
    (s : BugsState) :
    (smtRuns f bs s).mds_mitigation = s.mds_mitigation ∧
    (smtRuns f bs s).mmio_mitigation = s.mmio_mitigation := by
  induction bs generalizing s with
  | nil => exact ⟨rfl, rfl⟩
  | cons b bs ih =>
    refine ⟨?_, ?_⟩
    · exact ((ih (arch_smt_update f b s)).1).trans
        (arch_smt_update_frame f b s).1
    · exact ((ih (arch_smt_update f b s)).2).trans
        (arch_smt_update_frame f b s).2

theorem smtRuns_invariant (f : DetectionFacts) (bs : List Bool)
    (bp : Bool) (s : BugsState)
    (hinv : s.mds_idle_clear = if idleFormula f s bp then 1 else 0) :
    (smtRuns f bs s).mds_idle_clear =
      if idleFormula f (smtRuns f bs s) (lastD bs bp) then 1 else 0 := by
  induction bs generalizing s bp with
  | nil => exact hinv
  | cons b bs ih =>
    exact ih b (arch_smt_update f b s)
      (arch_smt_update_invariant f b bp s hinv)

/-- Claim C5, amended: in every reachable state after the Effect Applier
runs (the boot `md_clear_select_mitigation` phase followed by one or more
`arch_smt_update` invocations, each with the then-current SMT state, the
last one with SMT state `lastD bs b`), the `mds_idle_clear` key is enabled
iff EITHER the MMIO Stale Data mitigation ended up active and the
`ARCH_CAP_FBSDP_NO` capability is absent — in which case it stays enabled
even with SMT inactive — OR the hardware is MSBDS-only, the MDS mitigation
is active (Full or VMWERV), and SMT is currently active. -/
theorem mds_idle_clear_characterization (f : DetectionFacts)
    (o : Overrides) (m : mds_mitigations) (t : taa_mitigations)
    (mm : mmio_mitigations) (g : gds_mitigations) (b : Bool)
    (bs : List Bool) :
    0 < (smtRuns f (b :: bs)
        (md_clear_select_mitigation f o
          (initState m t mm g))).mds_idle_clear ↔
      (((md_clear_select_mitigation f o
          (initState m t mm g)).mmio_mitigation ≠ MMIO_MITIGATION_OFF ∧
        f.arch_cap_fbsdp_no = false) ∨
       (f.bug_msbds_only = true ∧
        ((md_clear_select_mitigation f o
            (initState m t mm g)).mds_mitigation = MDS_MITIGATION_FULL ∨
         (md_clear_select_mitigation f o
            (initState m t mm g)).mds_mitigation =
           MDS_MITIGATION_VMWERV) ∧
        lastD bs b = true)) := by
  have hboot : (md_clear_select_mitigation f o
      (initState m t mm g)).mds_idle_clear =
      if idleFormula f
        (md_clear_select_mitigation f o (initState m t mm g)) false
      then 1 else 0 := by
    rw [md_clear_select_idle f o m t mm g]
    unfold idleFormula
    simp
  have hrun := smtRuns_invariant f (b :: bs) false
    (md_clear_select_mitigation f o (initState m t mm g)) hboot
  rw [hrun]
  unfold idleFormula
  rw [(smtRuns_frame f (b :: bs) _).1, (smtRuns_frame f (b :: bs) _).2]
  have hlast : lastD (b :: bs) false = lastD bs b := rfl
  rw [hlast]
  split_ifs with h <;> simp [h]

/-- Concrete facts for C5's counterexample: MSBDS-only MDS-affected
hardware that is also MMIO-affected, without `ARCH_CAP_FBSDP_NO`. -/
def fC5 : DetectionFacts :=
  { factsBase with
    bug_mds := true
    bug_msbds_only := true
    feat_md_clear := true
    bug_mmio_stale_data := true }

/-- Claim C5 counterexample: after boot selection and an `arch_smt_update`
run with SMT inactive, the `mds_idle_clear` key is still enabled (count 1):
the MMIO mitigation keeps idle clearing on irrespective of SMT, refuting
"inactive whenever SMT is inactive". -/
theorem mds_idle_clear_characterization_cex :
    (smtRuns fC5 [false]
      (md_clear_select_mitigation fC5 ovBase
        stateDefaults)).mds_idle_clear = 1 ∧
    (1 : Nat) ≠ 0 := by
  decide

end Bugs
